import Mathlib

/-
Verification development for the d2q9-bgk lattice Boltzmann implementation
(src/d2q9-bgk.c).  The C program is shallow-embedded below:

* machine floats are modelled by exact real numbers; an IEEE division whose
  denominator is zero (which yields a non-finite float) is modelled by an
  Option-valued division returning none;
* the flat C arrays cells[ii + jj*nx] are modelled by total functions of the
  two coordinates (ii, jj); all loops of the program touch only indices with
  ii < nx, and the summations below range over exactly the index rectangles
  the corresponding C loops visit;
* the MPI rank topology is modelled by the pure index computations the
  program performs: the domain partitioner (main, lines 196-203), the
  halo-exchange send/receive parameters (halo_exchange, lines 464-484).
-/

open Finset

/-- The t_param struct of the program (nx, ny, maxIters, reynolds_dim are C
ints used as sizes; density, accel, omega are floats, modelled as reals). -/
structure t_param where
  nx : ℕ
  ny : ℕ
  maxIters : ℕ
  reynolds_dim : ℕ
  density : ℝ
  accel : ℝ
  omega : ℝ

/-- A cell: the 9 distribution-function values (t_speed.speeds). -/
abbrev Cell := Fin 9 → ℝ

/-- A grid, indexed (column ii, row jj); embeds cells[ii + jj*nx]. -/
abbrev Grid := ℕ → ℕ → Cell

/-- The obstacle mask, indexed (column ii, row jj). -/
abbrev Obstacles := ℕ → ℕ → Bool

/-- Embedding of the domain-size loop of main (lines 196-199):
counts the i < ny with i % size == rank. -/
def domain_size : ℕ → ℕ → ℕ → ℕ
  | 0, _, _ => 0
  | n + 1, size, rank => domain_size n size rank + if n % size = rank then 1 else 0

/-- Embedding of the domain-start loop of main (lines 196, 200-202):
counts the i < ny with i % size < rank. -/
def domain_start : ℕ → ℕ → ℕ → ℕ
  | 0, _, _ => 0
  | n + 1, size, rank => domain_start n size rank + if n % size < rank then 1 else 0

/-- The set of rows the time-step driver iterates for a worker: the loops of
main (lines 220-230) run jj from domain_start to domain_start + domain_size. -/
def iterRows (ny size rank : ℕ) : Finset ℕ :=
  Finset.Ico (domain_start ny size rank) (domain_start ny size rank + domain_size ny size rank)

/-- The round-robin row set named by the spec: rows r in [0, ny) with
r mod workerCount = rank. -/
def roundRobinRows (ny size rank : ℕ) : Finset ℕ :=
  (range ny).filter fun r => r % size = rank

/-- The rows assigned to lower-ranked workers, as counted by the spec:
rows r in [0, ny) with r mod workerCount < rank. -/
def lowerRows (ny size rank : ℕ) : Finset ℕ :=
  (range ny).filter fun r => r % size < rank

/-- The parameters of one MPI_Sendrecv performed by SendRecv (lines 445-462):
destination rank, source rank, the row copied into the send buffer, the row
the receive buffer is copied into, and the message tag. -/
structure SendRecvArgs where
  dest : ℕ
  source : ℕ
  sendRow : ℕ
  receiveRow : ℕ
  tag : ℕ
deriving DecidableEq, Repr

/-- Embedding of halo_exchange (lines 464-484): the list of SendRecv calls it
issues, in order, with the exact index arithmetic of the source (height is
params.ny).  When size == 1 no exchange happens. -/
def halo_exchange (height domain_start domain_size rank size : ℕ) : List SendRecvArgs :=
  if size ≠ 1 then
    [{ dest := ((size + rank) - 1) % size
       source := ((size + rank) + 1) % size
       sendRow := domain_start
       receiveRow := (domain_start + domain_size) % height
       tag := 0 },
     { dest := ((size + rank) + 1) % size
       source := ((rank + size) - 1) % size
       sendRow := (domain_start + domain_size) - 1
       receiveRow := ((domain_start + height) - 1) % height
       tag := 1 }]
  else []

/-- The in-place update of accelerate_flow (lines 283-290): w1 is added to
speed 1 and w2 to speeds 5 and 8; w1 is subtracted from speed 3 and w2 from
speeds 6 and 7. -/
noncomputable def accelerated_cell (params : t_param) (c : Cell) : Cell := fun k =>
  if k = 1 then c 1 + params.density * params.accel / 9
  else if k = 5 then c 5 + params.density * params.accel / 36
  else if k = 8 then c 8 + params.density * params.accel / 36
  else if k = 3 then c 3 - params.density * params.accel / 9
  else if k = 6 then c 6 - params.density * params.accel / 36
  else if k = 7 then c 7 - params.density * params.accel / 36
  else c k

open Classical in
/-- Embedding of accelerate_flow (lines 268-295): for each column ii < nx of
row ny - 2, if the cell is free and each of speeds 3, 6, 7 stays strictly
positive after subtracting the weight, redistribute density eastwards;
all other cells are untouched. -/
noncomputable def accelerate_flow (params : t_param) (cells : Grid) (obstacles : Obstacles) :
    Grid :=
  fun ii jj =>
    if ii < params.nx ∧ jj = params.ny - 2 ∧ obstacles ii jj = false ∧
        cells ii jj 3 - params.density * params.accel / 9 > 0 ∧
        cells ii jj 6 - params.density * params.accel / 36 > 0 ∧
        cells ii jj 7 - params.density * params.accel / 36 > 0 then
      accelerated_cell params (cells ii jj)
    else cells ii jj

/-- Embedding of propagate (lines 297-328): streams each speed from the
neighbour opposite its travel direction, with periodic wraparound exactly as
the source computes it. -/
def propagate (params : t_param) (cells : Grid) (ii jj : ℕ) : Cell := fun k =>
  let y_n := (jj + 1) % params.ny
  let x_e := (ii + 1) % params.nx
  let y_s := if jj = 0 then jj + params.ny - 1 else jj - 1
  let x_w := if ii = 0 then ii + params.nx - 1 else ii - 1
  if k = 0 then cells ii jj 0
  else if k = 1 then cells x_w jj 1
  else if k = 2 then cells ii y_s 2
  else if k = 3 then cells x_e jj 3
  else if k = 4 then cells ii y_n 4
  else if k = 5 then cells x_w y_s 5
  else if k = 6 then cells x_e y_s 6
  else if k = 7 then cells x_e y_n 7
  else cells x_w y_n 8

/-- The bounce-back overwrite of rebound (lines 336-351): c is the current
cell, t the scratch cell; the six paired directions and the axis pairs are
mirrored (1 from 3, 2 from 4, 3 from 1, 4 from 2, 5 from 7, 6 from 8,
7 from 5, 8 from 6), direction 0 keeps the current value. -/
def bounced_cell (c t : Cell) : Cell := fun k =>
  if k = 1 then t 3
  else if k = 2 then t 4
  else if k = 3 then t 1
  else if k = 4 then t 2
  else if k = 5 then t 7
  else if k = 6 then t 8
  else if k = 7 then t 5
  else if k = 8 then t 6
  else c k

/-- Embedding of rebound (lines 330-355): at an obstacle cell the current
grid's paired directions are overwritten with the scratch grid's
opposite-direction values; elsewhere the current cell is unchanged. -/
def rebound (params : t_param) (cells tmp_cells : Grid) (obstacles : Obstacles) (ii jj : ℕ) :
    Cell :=
  if obstacles ii jj = true then bounced_cell (cells ii jj) (tmp_cells ii jj)
  else cells ii jj

/-- Local density of a cell: the unrolled kk loop of collision (lines
366-370); the same loop appears in av_velocity and total_density. -/
noncomputable def local_density (t : Cell) : ℝ :=
  t 0 + t 1 + t 2 + t 3 + t 4 + t 5 + t 6 + t 7 + t 8

/-- x velocity component of collision (lines 373-379). -/
noncomputable def u_x (t : Cell) : ℝ :=
  (t 1 + t 5 + t 8 - (t 3 + t 6 + t 7)) / local_density t

/-- y velocity component of collision (lines 381-387). -/
noncomputable def u_y (t : Cell) : ℝ :=
  (t 2 + t 5 + t 6 - (t 4 + t 7 + t 8)) / local_density t

/-- The directional velocity array u[1..8] of collision (lines 393-401). -/
noncomputable def u_dir (t : Cell) : Fin 9 → ℝ := fun k =>
  if k = 1 then u_x t
  else if k = 2 then u_y t
  else if k = 3 then -u_x t
  else if k = 4 then -u_y t
  else if k = 5 then u_x t + u_y t
  else if k = 6 then -u_x t + u_y t
  else if k = 7 then -u_x t - u_y t
  else if k = 8 then u_x t - u_y t
  else 0

/-- The equilibrium densities d_equ[0..8] of collision (lines 404-432), with
c_sq = 1/3, w0 = 4/9, w1 = 1/9, w2 = 1/36 and u_sq inlined as
u_x*u_x + u_y*u_y, exactly as the source writes each formula. -/
noncomputable def d_equ (t : Cell) : Fin 9 → ℝ := fun k =>
  if k = 0 then
    4 / 9 * local_density t * (1 - (u_x t * u_x t + u_y t * u_y t) / (2 * (1 / 3)))
  else if k = 1 ∨ k = 2 ∨ k = 3 ∨ k = 4 then
    1 / 9 * local_density t *
      (1 + u_dir t k / (1 / 3) + u_dir t k * u_dir t k / (2 * (1 / 3) * (1 / 3)) -
        (u_x t * u_x t + u_y t * u_y t) / (2 * (1 / 3)))
  else
    1 / 36 * local_density t *
      (1 + u_dir t k / (1 / 3) + u_dir t k * u_dir t k / (2 * (1 / 3) * (1 / 3)) -
        (u_x t * u_x t + u_y t * u_y t) / (2 * (1 / 3)))

/-- Embedding of collision (lines 357-444): at a free cell the relaxation
step writes tmp + omega*(d_equ - tmp) into the current grid; an obstacle
cell of the current grid is untouched. -/
noncomputable def collision (params : t_param) (cells tmp_cells : Grid) (obstacles : Obstacles)
    (ii jj : ℕ) : Cell :=
  if obstacles ii jj = false then
    fun k => tmp_cells ii jj k + params.omega * (d_equ (tmp_cells ii jj) k - tmp_cells ii jj k)
  else cells ii jj

/-- The spec's lattice weights: 4/9 rest, 1/9 axis, 1/36 diagonal. -/
noncomputable def wt : Fin 9 → ℝ := fun k =>
  if k = 0 then 4 / 9 else if k = 1 ∨ k = 2 ∨ k = 3 ∨ k = 4 then 1 / 9 else 1 / 36

/-- x components of the 9 lattice direction vectors (spec direction order:
0 rest, 1-4 = E N W S, 5-8 = NE NW SW SE). -/
noncomputable def ex : Fin 9 → ℝ := fun k =>
  if k = 1 then 1 else if k = 3 then -1
  else if k = 5 then 1 else if k = 6 then -1 else if k = 7 then -1 else if k = 8 then 1 else 0

/-- y components of the 9 lattice direction vectors. -/
noncomputable def ey : Fin 9 → ℝ := fun k =>
  if k = 2 then 1 else if k = 4 then -1
  else if k = 5 then 1 else if k = 6 then 1 else if k = 7 then -1 else if k = 8 then -1 else 0

/-- Written from the spec's words, for the refinement comparison of the
collision claim: the standard second-order Maxwell-Boltzmann expansion with
weights wt, speed-of-sound squared 1/3 and direction vectors (ex, ey). -/
noncomputable def specEquilibrium (rho ux uy : ℝ) (k : Fin 9) : ℝ :=
  wt k * rho *
    (1 + (ux * ex k + uy * ey k) / (1 / 3) + (ux * ex k + uy * ey k) ^ 2 / (2 * (1 / 3) ^ 2)
      - (ux ^ 2 + uy ^ 2) / (2 * (1 / 3)))

/-- Written from the spec's words: x bulk velocity as the weighted direction
sum divided by the local density. -/
noncomputable def specVelX (t : Cell) : ℝ :=
  (ex 0 * t 0 + ex 1 * t 1 + ex 2 * t 2 + ex 3 * t 3 + ex 4 * t 4 + ex 5 * t 5 + ex 6 * t 6 +
      ex 7 * t 7 + ex 8 * t 8) / local_density t

/-- Written from the spec's words: y bulk velocity as the weighted direction
sum divided by the local density. -/
noncomputable def specVelY (t : Cell) : ℝ :=
  (ey 0 * t 0 + ey 1 * t 1 + ey 2 * t 2 + ey 3 * t 3 + ey 4 * t 4 + ey 5 * t 5 + ey 6 * t 6 +
      ey 7 * t 7 + ey 8 * t 8) / local_density t

/-- Embedding of total_density (lines 794-806): sum of all 9 speeds over the
whole nx-by-ny grid. -/
noncomputable def total_density (params : t_param) (cells : Grid) : ℝ :=
  ∑ jj in range params.ny, ∑ ii in range params.nx, local_density (cells ii jj)

/-- IEEE float division, modelled exactly: a division whose denominator is
zero produces a non-finite float (NaN or an infinity), modelled as none; any
other division produces the exact quotient. -/
noncomputable def fdiv (a b : ℝ) : Option ℝ := if b = 0 then none else some (a / b)

/-- The accumulated velocity magnitudes of av_velocity (lines 495-529):
sqrt(u_x^2 + u_y^2) over the non-obstacle cells of the row range, read from
the current grid. -/
noncomputable def tot_u (params : t_param) (cells : Grid) (obstacles : Obstacles)
    (domain_start domain_size : ℕ) : ℝ :=
  ∑ jj in Finset.Ico domain_start (domain_start + domain_size), ∑ ii in range params.nx,
    if obstacles ii jj = false then
      Real.sqrt (u_x (cells ii jj) * u_x (cells ii jj) + u_y (cells ii jj) * u_y (cells ii jj))
    else 0

/-- The fluid-cell counter of av_velocity (line 526). -/
def tot_cells (params : t_param) (obstacles : Obstacles)
    (domain_start domain_size : ℕ) : ℕ :=
  ∑ jj in Finset.Ico domain_start (domain_start + domain_size), ∑ ii in range params.nx,
    if obstacles ii jj = false then 1 else 0

/-- av_velocity's local return path (line 547, also line 544): the unguarded
division tot_u / (float)tot_cells. -/
noncomputable def av_velocity (params : t_param) (cells : Grid) (obstacles : Obstacles)
    (domain_start domain_size : ℕ) : Option ℝ :=
  fdiv (tot_u params cells obstacles domain_start domain_size)
    (tot_cells params obstacles domain_start domain_size : ℝ)

/-- A 1-by-2 parameter set used to instantiate theorems on concrete data:
density 9 and accel 1 give forcing weights w1 = 1 and w2 = 1/4. -/
noncomputable def exampleParams : t_param :=
  { nx := 1, ny := 2, maxIters := 1, reynolds_dim := 1, density := 9, accel := 1, omega := 1 }

/-- A grid holding 1 in every speed of every cell. -/
noncomputable def exampleGrid : Grid := fun _ _ _ => 1

/-- An obstacle mask with no obstacles. -/
def exampleObstacles : Obstacles := fun _ _ => false

/-- An obstacle mask blocking every cell. -/
def exampleBlocked : Obstacles := fun _ _ => true

lemma domain_size_eq_card (ny size rank : ℕ) :
    domain_size ny size rank = (roundRobinRows ny size rank).card := by
  induction ny with
  | zero => simp [domain_size, roundRobinRows]
  | succ n ih =>
    rw [domain_size, ih, roundRobinRows, roundRobinRows, Finset.range_succ,
      Finset.filter_insert]
    split_ifs with h
    · rw [Finset.card_insert_of_not_mem (by simp)]
    · rfl

lemma domain_start_eq_card (ny size rank : ℕ) :
    domain_start ny size rank = (lowerRows ny size rank).card := by
  induction ny with
  | zero => simp [domain_start, lowerRows]
  | succ n ih =>
    rw [domain_start, ih, lowerRows, lowerRows, Finset.range_succ, Finset.filter_insert]
    split_ifs with h
    · rw [Finset.card_insert_of_not_mem (by simp)]
    · rfl

lemma domain_start_add_size (ny size rank : ℕ) :
    domain_start ny size rank + domain_size ny size rank = domain_start ny size (rank + 1) := by
  induction ny with
  | zero => simp [domain_start, domain_size]
  | succ n ih =>
    rw [domain_start, domain_size, domain_start, ← ih]
    split_ifs <;> omega

lemma domain_start_self (ny size : ℕ) (h : 0 < size) :
    domain_start ny size size = ny := by
  induction ny with
  | zero => simp [domain_start]
  | succ n ih =>
    rw [domain_start, ih, if_pos (Nat.mod_lt n h)]

lemma domain_start_mono (ny size : ℕ) {r1 r2 : ℕ} (h : r1 ≤ r2) :
    domain_start ny size r1 ≤ domain_start ny size r2 := by
  induction ny with
  | zero => simp [domain_start]
  | succ n ih =>
    rw [domain_start, domain_start]
    have : (if n % size < r1 then 1 else 0) ≤ (if n % size < r2 then 1 else 0) := by
      split_ifs <;> omega
    omega

lemma domain_size_formula (ny size rank : ℕ) (h : 0 < size) (hr : rank < size) :
    domain_size ny size rank = ny / size + if rank < ny % size then 1 else 0 := by
  induction ny with
  | zero => simp [domain_size]
  | succ n ih =>
    have hmod : n % size < size := Nat.mod_lt n h
    have hdm : size * (n / size) + n % size = n := Nat.div_add_mod n size
    have hmul : size * (n / size + 1) = size * (n / size) + size := by ring
    by_cases hc : n % size + 1 = size
    · have hn1 : n + 1 = size * (n / size + 1) := by omega
      have hd : (n + 1) / size = n / size + 1 := by
        rw [hn1, Nat.mul_div_cancel_left _ h]
      have hm : (n + 1) % size = 0 := by
        rw [hn1, Nat.mul_mod_right]
      rw [domain_size, ih, hd, hm]
      split_ifs <;> omega
    · have hn1 : n + 1 = (n % size + 1) + size * (n / size) := by omega
      have hd : (n + 1) / size = n / size := by
        rw [hn1, Nat.add_mul_div_left _ _ h, Nat.div_eq_of_lt (by omega)]
        omega
      have hm : (n + 1) % size = n % size + 1 := by
        rw [hn1, Nat.add_mul_mod_self_left, Nat.mod_eq_of_lt (by omega)]
      rw [domain_size, ih, hd, hm]
      split_ifs <;> omega

lemma iterRows_eq_Ico (ny size rank : ℕ) :
    iterRows ny size rank =
      Finset.Ico (domain_start ny size rank) (domain_start ny size (rank + 1)) := by
  rw [iterRows, domain_start_add_size]

lemma biUnion_iterRows_aux (ny size : ℕ) (m : ℕ) :
    (range m).biUnion (fun r => iterRows ny size r) =
      Finset.Ico 0 (domain_start ny size m) := by
  induction m with
  | zero =>
    have h0 : domain_start ny size 0 = 0 := by
      induction ny with
      | zero => simp [domain_start]
      | succ n ih => rw [domain_start, ih]; simp
    simp [h0]
  | succ m ih =>
    rw [Finset.range_succ, Finset.biUnion_insert, ih, iterRows_eq_Ico, Finset.union_comm,
      Finset.Ico_union_Ico_eq_Ico (Nat.zero_le _) (domain_start_mono ny size (Nat.le_succ m))]

lemma iterRows_disjoint_of_lt (ny size : ℕ) {r1 r2 : ℕ} (h : r1 < r2) :
    Disjoint (iterRows ny size r1) (iterRows ny size r2) := by
  rw [Finset.disjoint_left]
  intro a ha1 ha2
  rw [iterRows_eq_Ico, Finset.mem_Ico] at ha1 ha2
  have hmono : domain_start ny size (r1 + 1) ≤ domain_start ny size r2 :=
    domain_start_mono ny size h
  omega

/-- C3: for every ny >= 1 and workerCount >= 1 the partitioner ranges of
ranks 0..workerCount-1 cover [0, ny) exactly once (their union is [0, ny)
and they are pairwise disjoint), and any two ranks' sizes differ by at
most 1. -/
theorem partition_complete (ny size : ℕ) (hny : 1 ≤ ny) (hs : 1 ≤ size) :
    (range size).biUnion (fun r => iterRows ny size r) = range ny
    ∧ (∀ r1 r2, r1 < size → r2 < size → r1 ≠ r2 →
        Disjoint (iterRows ny size r1) (iterRows ny size r2))
    ∧ (∀ r1 r2, r1 < size → r2 < size →
        domain_size ny size r1 ≤ domain_size ny size r2 + 1) := by
  refine ⟨?_, ?_, ?_⟩
  · rw [biUnion_iterRows_aux, domain_start_self ny size hs, ← Finset.range_eq_Ico]
  · intro r1 r2 _ _ hne
    rcases Nat.lt_or_ge r1 r2 with h | h
    · exact iterRows_disjoint_of_lt ny size h
    · have hlt : r2 < r1 := by omega
      exact (iterRows_disjoint_of_lt ny size hlt).symm
  · intro r1 r2 h1 h2
    rw [domain_size_formula ny size r1 hs h1, domain_size_formula ny size r2 hs h2]
    split_ifs <;> omega

/-- C3 witness: the partition property instantiated at ny = 3, two workers. -/
theorem partition_complete_witness :
    (range 2).biUnion (fun r => iterRows 3 2 r) = range 3
    ∧ (∀ r1 r2, r1 < 2 → r2 < 2 → r1 ≠ r2 →
        Disjoint (iterRows 3 2 r1) (iterRows 3 2 r2))
    ∧ (∀ r1 r2, r1 < 2 → r2 < 2 → domain_size 3 2 r1 ≤ domain_size 3 2 r2 + 1) :=
  partition_complete 3 2 (by decide) (by decide)

/-- C2 counterexample: at ny = 4, workerCount = 2, rank = 0 the rows the
driver iterates are the contiguous block {0, 1}, not the round-robin set
{0, 2}, so the claimed set equality is false. -/
theorem owned_rows_counterexample : iterRows 4 2 0 ≠ roundRobinRows 4 2 0 := by decide

/-- C2 (amended): the rows the worker iterates form the contiguous half-open
range [start, start + size) inside [0, ny), where size is the cardinality of
the round-robin set of rows r with r mod workerCount = rank, and start is the
number of rows assigned to lower-ranked workers; the range itself is not the
round-robin set in general. -/
theorem owned_rows_amended (ny size rank : ℕ) (hs : 0 < size) (hr : rank < size) :
    iterRows ny size rank =
      Finset.Ico (lowerRows ny size rank).card
        ((lowerRows ny size rank).card + (roundRobinRows ny size rank).card)
    ∧ iterRows ny size rank ⊆ range ny := by
  constructor
  · rw [iterRows, domain_start_eq_card, domain_size_eq_card]
  · intro a ha
    rw [iterRows_eq_Ico, Finset.mem_Ico] at ha
    have h1 : domain_start ny size (rank + 1) ≤ domain_start ny size size :=
      domain_start_mono ny size (by omega)
    rw [domain_start_self ny size hs] at h1
    rw [Finset.mem_range]
    omega

/-- C2 witness: the amended row-ownership statement at ny = 3, workerCount =
2, rank = 1. -/
theorem owned_rows_amended_witness :
    iterRows 3 2 1 =
      Finset.Ico (lowerRows 3 2 1).card
        ((lowerRows 3 2 1).card + (roundRobinRows 3 2 1).card)
    ∧ iterRows 3 2 1 ⊆ range 3 :=
  owned_rows_amended 3 2 1 (by decide) (by decide)

/-- C1 counterexample: at ny = 4, workerCount = 2, rank = 1 (start = 2,
size = 2) the receive rows computed by halo_exchange are [0, 1], not the
claimed [(start - 1 + ny) mod ny, (start + size) mod ny] = [1, 0]: the two
receive-row formulas of the claim are swapped. -/
theorem halo_receive_rows_counterexample :
    (halo_exchange 4 (domain_start 4 2 1) (domain_size 4 2 1) 1 2).map SendRecvArgs.receiveRow ≠
      [(domain_start 4 2 1 - 1 + 4) % 4,
       (domain_start 4 2 1 + domain_size 4 2 1) % 4] := by
  decide

/-- C1 (amended): when workerCount > 1, the first (upstream) exchange sends
this worker's first owned row (start) to the predecessor (rank - 1 mod
workerCount) with tag 0 and receives from the successor into the row
immediately FOLLOWING the owned range, (start + size) mod ny; the second
(downstream) exchange sends the last owned row (start + size - 1) to the
successor with tag 1 and receives from the predecessor into the row
immediately PRECEDING the owned range, (start + ny - 1) mod ny. -/
theorem halo_receive_rows_amended (ny size rank : ℕ) (h1 : 1 < size) :
    halo_exchange ny (domain_start ny size rank) (domain_size ny size rank) rank size =
      [{ dest := (rank + size - 1) % size
         source := (rank + 1) % size
         sendRow := domain_start ny size rank
         receiveRow := (domain_start ny size rank + domain_size ny size rank) % ny
         tag := 0 },
       { dest := (rank + 1) % size
         source := (rank + size - 1) % size
         sendRow := domain_start ny size rank + domain_size ny size rank - 1
         receiveRow := (domain_start ny size rank + ny - 1) % ny
         tag := 1 }] := by
  unfold halo_exchange
  rw [if_pos (show size ≠ 1 from by omega),
    show (size + rank) - 1 = rank + size - 1 from by omega,
    show (size + rank) + 1 = (rank + 1) + size from by omega,
    Nat.add_mod_right]

/-- C1 witness: the amended halo-exchange statement at ny = 4, workerCount =
2, rank = 0. -/
theorem halo_receive_rows_amended_witness :
    halo_exchange 4 (domain_start 4 2 0) (domain_size 4 2 0) 0 2 =
      [{ dest := (0 + 2 - 1) % 2
         source := (0 + 1) % 2
         sendRow := domain_start 4 2 0
         receiveRow := (domain_start 4 2 0 + domain_size 4 2 0) % 4
         tag := 0 },
       { dest := (0 + 1) % 2
         source := (0 + 2 - 1) % 2
         sendRow := domain_start 4 2 0 + domain_size 4 2 0 - 1
         receiveRow := (domain_start 4 2 0 + 4 - 1) % 4
         tag := 1 }] :=
  halo_receive_rows_amended 4 2 0 (by decide)

/-- C4 counterexample: at ny = 4 and workerCount = 3 the worker the driver
selects for accelerate_flow (rank 2) owns rows [3, 4), which does not contain
the forced row ny - 2 = 2 (rank 1 owns it), so the claim fails. -/
theorem accelerate_owner_counterexample : (4 : ℕ) - 2 ∉ iterRows 4 3 (3 - 1) := by decide

/-- C4 (amended): provided ny >= 2 * workerCount (so that the last rank owns
at least two rows), the worker the driver selects to run accelerate_flow
(rank workerCount - 1) has the forced row ny - 2 inside its owned range. -/
theorem accelerate_owner_amended (ny size : ℕ) (hs : 0 < size) (h2 : 2 * size ≤ ny) :
    ny - 2 ∈ iterRows ny size (size - 1) := by
  have hformula := domain_size_formula ny size (size - 1) hs (by omega)
  have hmod : ny % size < size := Nat.mod_lt ny hs
  have hsz : domain_size ny size (size - 1) = ny / size := by
    rw [hformula, if_neg (by omega)]
    omega
  have hdiv : 2 ≤ ny / size := (Nat.le_div_iff_mul_le hs).2 (by omega)
  have hend : domain_start ny size (size - 1) + domain_size ny size (size - 1) = ny := by
    rw [domain_start_add_size, Nat.sub_add_cancel hs, domain_start_self ny size hs]
  rw [iterRows, Finset.mem_Ico]
  omega

/-- C4 witness: at ny = 4 and workerCount = 2, rank 1 owns row ny - 2 = 2. -/
theorem accelerate_owner_amended_witness : (4 : ℕ) - 2 ∈ iterRows 4 2 (2 - 1) :=
  accelerate_owner_amended 4 2 (by decide) (by decide)

lemma accelerate_flow_of_cond (params : t_param) (cells : Grid) (obstacles : Obstacles)
    {ii jj : ℕ}
    (h : ii < params.nx ∧ jj = params.ny - 2 ∧ obstacles ii jj = false ∧
      cells ii jj 3 - params.density * params.accel / 9 > 0 ∧
      cells ii jj 6 - params.density * params.accel / 36 > 0 ∧
      cells ii jj 7 - params.density * params.accel / 36 > 0) :
    accelerate_flow params cells obstacles ii jj = accelerated_cell params (cells ii jj) := by
  simp only [accelerate_flow]
  rw [if_pos h]

lemma accelerate_flow_of_not_cond (params : t_param) (cells : Grid) (obstacles : Obstacles)
    {ii jj : ℕ}
    (h : ¬(ii < params.nx ∧ jj = params.ny - 2 ∧ obstacles ii jj = false ∧
      cells ii jj 3 - params.density * params.accel / 9 > 0 ∧
      cells ii jj 6 - params.density * params.accel / 36 > 0 ∧
      cells ii jj 7 - params.density * params.accel / 36 > 0)) :
    accelerate_flow params cells obstacles ii jj = cells ii jj := by
  simp only [accelerate_flow]
  rw [if_neg h]

/-- C5 counterexample: with density 9, accel 1 (so w1 = 1) and a cell whose
speed 3 is exactly 1, subtracting w1 gives exactly 0, which is not negative,
so the claim says the forcing is applied; the code's strict test skips the
cell (direction 1 stays 1 instead of becoming 1 + w1 = 2). -/
theorem accelerate_condition_counterexample :
    exampleObstacles 0 (exampleParams.ny - 2) = false
    ∧ 0 ≤ exampleGrid 0 (exampleParams.ny - 2) 3 - exampleParams.density * exampleParams.accel / 9
    ∧ 0 ≤ exampleGrid 0 (exampleParams.ny - 2) 6 - exampleParams.density * exampleParams.accel / 36
    ∧ 0 ≤ exampleGrid 0 (exampleParams.ny - 2) 7 - exampleParams.density * exampleParams.accel / 36
    ∧ accelerate_flow exampleParams exampleGrid exampleObstacles 0 (exampleParams.ny - 2) 1
        = exampleGrid 0 (exampleParams.ny - 2) 1
    ∧ exampleGrid 0 (exampleParams.ny - 2) 1
        ≠ exampleGrid 0 (exampleParams.ny - 2) 1
            + exampleParams.density * exampleParams.accel / 9 := by
  refine ⟨rfl, by norm_num [exampleGrid, exampleParams],
    by norm_num [exampleGrid, exampleParams], by norm_num [exampleGrid, exampleParams], ?_,
    by norm_num [exampleGrid, exampleParams]⟩
  rw [accelerate_flow_of_not_cond]
  intro h
  exact absurd h.2.2.2.1 (by norm_num [exampleGrid, exampleParams])

/-- C5 (amended): accelerate_flow applies the forcing to a cell of row
ny - 2 exactly when the cell is not an obstacle and subtracting the weights
leaves each of speeds 3, 6, 7 STRICTLY positive (it skips whenever some
resulting component would be zero or below); when applied it adds w1 to
direction 1 and w2 to directions 5 and 8, subtracts w1 from direction 3 and
w2 from directions 6 and 7, and leaves directions 0, 2, 4 unchanged. -/
theorem accelerate_condition_amended (params : t_param) (cells : Grid) (obstacles : Obstacles)
    (ii jj : ℕ) (hii : ii < params.nx) (hjj : jj = params.ny - 2) :
    (obstacles ii jj = false ∧ cells ii jj 3 - params.density * params.accel / 9 > 0 ∧
        cells ii jj 6 - params.density * params.accel / 36 > 0 ∧
        cells ii jj 7 - params.density * params.accel / 36 > 0 →
      accelerate_flow params cells obstacles ii jj 1
          = cells ii jj 1 + params.density * params.accel / 9
        ∧ accelerate_flow params cells obstacles ii jj 5
          = cells ii jj 5 + params.density * params.accel / 36
        ∧ accelerate_flow params cells obstacles ii jj 8
          = cells ii jj 8 + params.density * params.accel / 36
        ∧ accelerate_flow params cells obstacles ii jj 3
          = cells ii jj 3 - params.density * params.accel / 9
        ∧ accelerate_flow params cells obstacles ii jj 6
          = cells ii jj 6 - params.density * params.accel / 36
        ∧ accelerate_flow params cells obstacles ii jj 7
          = cells ii jj 7 - params.density * params.accel / 36
        ∧ accelerate_flow params cells obstacles ii jj 0 = cells ii jj 0
        ∧ accelerate_flow params cells obstacles ii jj 2 = cells ii jj 2
        ∧ accelerate_flow params cells obstacles ii jj 4 = cells ii jj 4)
    ∧ (¬(obstacles ii jj = false ∧ cells ii jj 3 - params.density * params.accel / 9 > 0 ∧
          cells ii jj 6 - params.density * params.accel / 36 > 0 ∧
          cells ii jj 7 - params.density * params.accel / 36 > 0) →
        accelerate_flow params cells obstacles ii jj = cells ii jj) := by
  constructor
  · intro h
    rw [accelerate_flow_of_cond params cells obstacles
      ⟨hii, hjj, h.1, h.2.1, h.2.2.1, h.2.2.2⟩]
    exact ⟨rfl, rfl, rfl, rfl, rfl, rfl, rfl, rfl, rfl⟩
  · intro h
    rw [accelerate_flow_of_not_cond]
    intro hc
    exact h ⟨hc.2.2.1, hc.2.2.2.1, hc.2.2.2.2.1, hc.2.2.2.2.2⟩

/-- C5 witness: the amended accelerate condition at column 0 of row ny - 2 of
the example configuration. -/
theorem accelerate_condition_amended_witness :
    (exampleObstacles 0 (exampleParams.ny - 2) = false ∧
        exampleGrid 0 (exampleParams.ny - 2) 3
            - exampleParams.density * exampleParams.accel / 9 > 0 ∧
        exampleGrid 0 (exampleParams.ny - 2) 6
            - exampleParams.density * exampleParams.accel / 36 > 0 ∧
        exampleGrid 0 (exampleParams.ny - 2) 7
            - exampleParams.density * exampleParams.accel / 36 > 0 →
      accelerate_flow exampleParams exampleGrid exampleObstacles 0 (exampleParams.ny - 2) 1
          = exampleGrid 0 (exampleParams.ny - 2) 1
              + exampleParams.density * exampleParams.accel / 9
        ∧ accelerate_flow exampleParams exampleGrid exampleObstacles 0 (exampleParams.ny - 2) 5
          = exampleGrid 0 (exampleParams.ny - 2) 5
              + exampleParams.density * exampleParams.accel / 36
        ∧ accelerate_flow exampleParams exampleGrid exampleObstacles 0 (exampleParams.ny - 2) 8
          = exampleGrid 0 (exampleParams.ny - 2) 8
              + exampleParams.density * exampleParams.accel / 36
        ∧ accelerate_flow exampleParams exampleGrid exampleObstacles 0 (exampleParams.ny - 2) 3
          = exampleGrid 0 (exampleParams.ny - 2) 3
              - exampleParams.density * exampleParams.accel / 9
        ∧ accelerate_flow exampleParams exampleGrid exampleObstacles 0 (exampleParams.ny - 2) 6
          = exampleGrid 0 (exampleParams.ny - 2) 6
              - exampleParams.density * exampleParams.accel / 36
        ∧ accelerate_flow exampleParams exampleGrid exampleObstacles 0 (exampleParams.ny - 2) 7
          = exampleGrid 0 (exampleParams.ny - 2) 7
              - exampleParams.density * exampleParams.accel / 36
        ∧ accelerate_flow exampleParams exampleGrid exampleObstacles 0 (exampleParams.ny - 2) 0
          = exampleGrid 0 (exampleParams.ny - 2) 0
        ∧ accelerate_flow exampleParams exampleGrid exampleObstacles 0 (exampleParams.ny - 2) 2
          = exampleGrid 0 (exampleParams.ny - 2) 2
        ∧ accelerate_flow exampleParams exampleGrid exampleObstacles 0 (exampleParams.ny - 2) 4
          = exampleGrid 0 (exampleParams.ny - 2) 4)
    ∧ (¬(exampleObstacles 0 (exampleParams.ny - 2) = false ∧
          exampleGrid 0 (exampleParams.ny - 2) 3
              - exampleParams.density * exampleParams.accel / 9 > 0 ∧
          exampleGrid 0 (exampleParams.ny - 2) 6
              - exampleParams.density * exampleParams.accel / 36 > 0 ∧
          exampleGrid 0 (exampleParams.ny - 2) 7
              - exampleParams.density * exampleParams.accel / 36 > 0) →
        accelerate_flow exampleParams exampleGrid exampleObstacles 0 (exampleParams.ny - 2)
          = exampleGrid 0 (exampleParams.ny - 2)) :=
  accelerate_condition_amended exampleParams exampleGrid exampleObstacles 0
    (exampleParams.ny - 2) (by norm_num [exampleParams]) rfl

/-- C10: accelerate_flow leaves every cell outside row ny - 2 entirely
unchanged, leaves directions 0, 2 and 4 of every cell unchanged, and leaves
every cell's total density (sum of the 9 speeds) unchanged: the amount added
(w1 + 2*w2) equals the amount subtracted. -/
theorem accelerate_flow_frame (params : t_param) (cells : Grid) (obstacles : Obstacles)
    (ii jj : ℕ) :
    (jj ≠ params.ny - 2 → accelerate_flow params cells obstacles ii jj = cells ii jj)
    ∧ accelerate_flow params cells obstacles ii jj 0 = cells ii jj 0
    ∧ accelerate_flow params cells obstacles ii jj 2 = cells ii jj 2
    ∧ accelerate_flow params cells obstacles ii jj 4 = cells ii jj 4
    ∧ local_density (accelerate_flow params cells obstacles ii jj)
        = local_density (cells ii jj) := by
  by_cases h : ii < params.nx ∧ jj = params.ny - 2 ∧ obstacles ii jj = false ∧
      cells ii jj 3 - params.density * params.accel / 9 > 0 ∧
      cells ii jj 6 - params.density * params.accel / 36 > 0 ∧
      cells ii jj 7 - params.density * params.accel / 36 > 0
  · rw [accelerate_flow_of_cond params cells obstacles h]
    refine ⟨fun hne => absurd h.2.1 hne, rfl, rfl, rfl, ?_⟩
    show cells ii jj 0 + (cells ii jj 1 + params.density * params.accel / 9) + cells ii jj 2
        + (cells ii jj 3 - params.density * params.accel / 9) + cells ii jj 4
        + (cells ii jj 5 + params.density * params.accel / 36)
        + (cells ii jj 6 - params.density * params.accel / 36)
        + (cells ii jj 7 - params.density * params.accel / 36)
        + (cells ii jj 8 + params.density * params.accel / 36)
        = cells ii jj 0 + cells ii jj 1 + cells ii jj 2 + cells ii jj 3 + cells ii jj 4
          + cells ii jj 5 + cells ii jj 6 + cells ii jj 7 + cells ii jj 8
    ring
  · rw [accelerate_flow_of_not_cond params cells obstacles h]
    exact ⟨fun _ => rfl, rfl, rfl, rfl, rfl⟩

/-- C10 witness: the frame properties of accelerate_flow at a concrete cell
(column 0, row 5) of the example configuration. -/
theorem accelerate_flow_frame_witness :
    ((5 : ℕ) ≠ exampleParams.ny - 2 →
      accelerate_flow exampleParams exampleGrid exampleObstacles 0 5 = exampleGrid 0 5)
    ∧ accelerate_flow exampleParams exampleGrid exampleObstacles 0 5 0 = exampleGrid 0 5 0
    ∧ accelerate_flow exampleParams exampleGrid exampleObstacles 0 5 2 = exampleGrid 0 5 2
    ∧ accelerate_flow exampleParams exampleGrid exampleObstacles 0 5 4 = exampleGrid 0 5 4
    ∧ local_density (accelerate_flow exampleParams exampleGrid exampleObstacles 0 5)
        = local_density (exampleGrid 0 5) :=
  accelerate_flow_frame exampleParams exampleGrid exampleObstacles 0 5

/-- C7: at an obstacle cell, after propagate and rebound the current grid
holds exactly the scratch grid's opposite-direction values in the paired
directions (1 from 3, 2 from 4, 3 from 1, 4 from 2, 5 from 7, 6 from 8,
7 from 5, 8 from 6) with no relaxation, the rest direction 0 is unchanged,
and rebound leaves every non-obstacle cell of the current grid unchanged. -/
theorem rebound_bounce_back (params : t_param) (cells : Grid) (obstacles : Obstacles)
    (ii jj : ℕ) :
    (obstacles ii jj = true →
      rebound params cells (fun x y => propagate params cells x y) obstacles ii jj 1
          = propagate params cells ii jj 3
        ∧ rebound params cells (fun x y => propagate params cells x y) obstacles ii jj 2
          = propagate params cells ii jj 4
        ∧ rebound params cells (fun x y => propagate params cells x y) obstacles ii jj 3
          = propagate params cells ii jj 1
        ∧ rebound params cells (fun x y => propagate params cells x y) obstacles ii jj 4
          = propagate params cells ii jj 2
        ∧ rebound params cells (fun x y => propagate params cells x y) obstacles ii jj 5
          = propagate params cells ii jj 7
        ∧ rebound params cells (fun x y => propagate params cells x y) obstacles ii jj 6
          = propagate params cells ii jj 8
        ∧ rebound params cells (fun x y => propagate params cells x y) obstacles ii jj 7
          = propagate params cells ii jj 5
        ∧ rebound params cells (fun x y => propagate params cells x y) obstacles ii jj 8
          = propagate params cells ii jj 6
        ∧ rebound params cells (fun x y => propagate params cells x y) obstacles ii jj 0
          = cells ii jj 0)
    ∧ (obstacles ii jj = false →
        rebound params cells (fun x y => propagate params cells x y) obstacles ii jj
          = cells ii jj) := by
  constructor
  · intro h
    have hb : rebound params cells (fun x y => propagate params cells x y) obstacles ii jj =
        bounced_cell (cells ii jj) (propagate params cells ii jj) := by
      simp only [rebound]
      rw [if_pos h]
    rw [hb]
    exact ⟨rfl, rfl, rfl, rfl, rfl, rfl, rfl, rfl, rfl⟩
  · intro h
    simp only [rebound]
    rw [if_neg (by simp [h])]

/-- C7 witness: bounce-back at the all-obstacle mask, cell (0, 0) of the
example configuration. -/
theorem rebound_bounce_back_witness :
    rebound exampleParams exampleGrid
        (fun x y => propagate exampleParams exampleGrid x y) exampleBlocked 0 0 1
      = propagate exampleParams exampleGrid 0 0 3
    ∧ rebound exampleParams exampleGrid
        (fun x y => propagate exampleParams exampleGrid x y) exampleBlocked 0 0 2
      = propagate exampleParams exampleGrid 0 0 4
    ∧ rebound exampleParams exampleGrid
        (fun x y => propagate exampleParams exampleGrid x y) exampleBlocked 0 0 3
      = propagate exampleParams exampleGrid 0 0 1
    ∧ rebound exampleParams exampleGrid
        (fun x y => propagate exampleParams exampleGrid x y) exampleBlocked 0 0 4
      = propagate exampleParams exampleGrid 0 0 2
    ∧ rebound exampleParams exampleGrid
        (fun x y => propagate exampleParams exampleGrid x y) exampleBlocked 0 0 5
      = propagate exampleParams exampleGrid 0 0 7
    ∧ rebound exampleParams exampleGrid
        (fun x y => propagate exampleParams exampleGrid x y) exampleBlocked 0 0 6
      = propagate exampleParams exampleGrid 0 0 8
    ∧ rebound exampleParams exampleGrid
        (fun x y => propagate exampleParams exampleGrid x y) exampleBlocked 0 0 7
      = propagate exampleParams exampleGrid 0 0 5
    ∧ rebound exampleParams exampleGrid
        (fun x y => propagate exampleParams exampleGrid x y) exampleBlocked 0 0 8
      = propagate exampleParams exampleGrid 0 0 6
    ∧ rebound exampleParams exampleGrid
        (fun x y => propagate exampleParams exampleGrid x y) exampleBlocked 0 0 0
      = exampleGrid 0 0 0 :=
  (rebound_bounce_back exampleParams exampleGrid exampleBlocked 0 0).1 rfl

lemma specVelX_eq_u_x (t : Cell) : specVelX t = u_x t := by
  show (0 * t 0 + 1 * t 1 + 0 * t 2 + -1 * t 3 + 0 * t 4 + 1 * t 5 + -1 * t 6
      + -1 * t 7 + 1 * t 8) / local_density t
    = (t 1 + t 5 + t 8 - (t 3 + t 6 + t 7)) / local_density t
  ring

lemma specVelY_eq_u_y (t : Cell) : specVelY t = u_y t := by
  show (0 * t 0 + 0 * t 1 + 1 * t 2 + 0 * t 3 + -1 * t 4 + 1 * t 5 + 1 * t 6
      + -1 * t 7 + -1 * t 8) / local_density t
    = (t 2 + t 5 + t 6 - (t 4 + t 7 + t 8)) / local_density t
  ring

lemma d_eval_0 (t : Cell) : d_equ t 0 =
    4 / 9 * local_density t * (1 - (u_x t * u_x t + u_y t * u_y t) / (2 * (1 / 3))) := rfl

lemma d_eval_1 (t : Cell) : d_equ t 1 =
    1 / 9 * local_density t * (1 + u_x t / (1 / 3) + u_x t * u_x t / (2 * (1 / 3) * (1 / 3)) -
      (u_x t * u_x t + u_y t * u_y t) / (2 * (1 / 3))) := rfl

lemma d_eval_2 (t : Cell) : d_equ t 2 =
    1 / 9 * local_density t * (1 + u_y t / (1 / 3) + u_y t * u_y t / (2 * (1 / 3) * (1 / 3)) -
      (u_x t * u_x t + u_y t * u_y t) / (2 * (1 / 3))) := rfl

lemma d_eval_3 (t : Cell) : d_equ t 3 =
    1 / 9 * local_density t * (1 + -u_x t / (1 / 3) + -u_x t * -u_x t / (2 * (1 / 3) * (1 / 3)) -
      (u_x t * u_x t + u_y t * u_y t) / (2 * (1 / 3))) := rfl

lemma d_eval_4 (t : Cell) : d_equ t 4 =
    1 / 9 * local_density t * (1 + -u_y t / (1 / 3) + -u_y t * -u_y t / (2 * (1 / 3) * (1 / 3)) -
      (u_x t * u_x t + u_y t * u_y t) / (2 * (1 / 3))) := rfl

lemma d_eval_5 (t : Cell) : d_equ t 5 =
    1 / 36 * local_density t * (1 + (u_x t + u_y t) / (1 / 3) +
      (u_x t + u_y t) * (u_x t + u_y t) / (2 * (1 / 3) * (1 / 3)) -
      (u_x t * u_x t + u_y t * u_y t) / (2 * (1 / 3))) := rfl

lemma d_eval_6 (t : Cell) : d_equ t 6 =
    1 / 36 * local_density t * (1 + (-u_x t + u_y t) / (1 / 3) +
      (-u_x t + u_y t) * (-u_x t + u_y t) / (2 * (1 / 3) * (1 / 3)) -
      (u_x t * u_x t + u_y t * u_y t) / (2 * (1 / 3))) := rfl

lemma d_eval_7 (t : Cell) : d_equ t 7 =
    1 / 36 * local_density t * (1 + (-u_x t - u_y t) / (1 / 3) +
      (-u_x t - u_y t) * (-u_x t - u_y t) / (2 * (1 / 3) * (1 / 3)) -
      (u_x t * u_x t + u_y t * u_y t) / (2 * (1 / 3))) := rfl

lemma d_eval_8 (t : Cell) : d_equ t 8 =
    1 / 36 * local_density t * (1 + (u_x t - u_y t) / (1 / 3) +
      (u_x t - u_y t) * (u_x t - u_y t) / (2 * (1 / 3) * (1 / 3)) -
      (u_x t * u_x t + u_y t * u_y t) / (2 * (1 / 3))) := rfl

lemma wt_eval_0 : wt 0 = 4 / 9 := rfl
lemma wt_eval_1 : wt 1 = 1 / 9 := rfl
lemma wt_eval_2 : wt 2 = 1 / 9 := rfl
lemma wt_eval_3 : wt 3 = 1 / 9 := rfl
lemma wt_eval_4 : wt 4 = 1 / 9 := rfl
lemma wt_eval_5 : wt 5 = 1 / 36 := rfl
lemma wt_eval_6 : wt 6 = 1 / 36 := rfl
lemma wt_eval_7 : wt 7 = 1 / 36 := rfl
lemma wt_eval_8 : wt 8 = 1 / 36 := rfl

lemma ex_eval_0 : ex 0 = 0 := rfl
lemma ex_eval_1 : ex 1 = 1 := rfl
lemma ex_eval_2 : ex 2 = 0 := rfl
lemma ex_eval_3 : ex 3 = -1 := rfl
lemma ex_eval_4 : ex 4 = 0 := rfl
lemma ex_eval_5 : ex 5 = 1 := rfl
lemma ex_eval_6 : ex 6 = -1 := rfl
lemma ex_eval_7 : ex 7 = -1 := rfl
lemma ex_eval_8 : ex 8 = 1 := rfl

lemma ey_eval_0 : ey 0 = 0 := rfl
lemma ey_eval_1 : ey 1 = 0 := rfl
lemma ey_eval_2 : ey 2 = 1 := rfl
lemma ey_eval_3 : ey 3 = 0 := rfl
lemma ey_eval_4 : ey 4 = -1 := rfl
lemma ey_eval_5 : ey 5 = 1 := rfl
lemma ey_eval_6 : ey 6 = 1 := rfl
lemma ey_eval_7 : ey 7 = -1 := rfl
lemma ey_eval_8 : ey 8 = -1 := rfl

lemma fin9_cases (P : Fin 9 → Prop) (h0 : P 0) (h1 : P 1) (h2 : P 2) (h3 : P 3) (h4 : P 4)
    (h5 : P 5) (h6 : P 6) (h7 : P 7) (h8 : P 8) : ∀ k, P k := by
  intro k
  obtain ⟨v, hv⟩ := k
  interval_cases v
  · exact h0
  · exact h1
  · exact h2
  · exact h3
  · exact h4
  · exact h5
  · exact h6
  · exact h7
  · exact h8

lemma d_equ_eq_specEquilibrium (t : Cell) (k : Fin 9) :
    d_equ t k = specEquilibrium (local_density t) (specVelX t) (specVelY t) k := by
  rw [specVelX_eq_u_x, specVelY_eq_u_y]
  refine fin9_cases
    (fun m => d_equ t m = specEquilibrium (local_density t) (u_x t) (u_y t) m)
    ?_ ?_ ?_ ?_ ?_ ?_ ?_ ?_ ?_ k <;>
    · simp only [d_eval_0, d_eval_1, d_eval_2, d_eval_3, d_eval_4, d_eval_5, d_eval_6,
        d_eval_7, d_eval_8, specEquilibrium, wt_eval_0, wt_eval_1, wt_eval_2, wt_eval_3,
        wt_eval_4, wt_eval_5, wt_eval_6, wt_eval_7, wt_eval_8, ex_eval_0, ex_eval_1, ex_eval_2,
        ex_eval_3, ex_eval_4, ex_eval_5, ex_eval_6, ex_eval_7, ex_eval_8, ey_eval_0, ey_eval_1,
        ey_eval_2, ey_eval_3, ey_eval_4, ey_eval_5, ey_eval_6, ey_eval_7, ey_eval_8]
      ring


/-- C6: at every non-obstacle cell, collision writes, for each direction k,
scratch[k] + omega*(equilibrium[k] - scratch[k]) into the current grid, where
the equilibrium is the spec's second-order Maxwell-Boltzmann expansion
(weights 4/9, 1/9, 1/36, speed-of-sound squared 1/3) evaluated at the
scratch cell's local density and its bulk velocity (weighted direction sums
divided by the local density); obstacle cells are left unchanged. -/
theorem collision_bgk_relaxation (params : t_param) (cells tmp_cells : Grid)
    (obstacles : Obstacles) (ii jj : ℕ) :
    (obstacles ii jj = false → ∀ k : Fin 9,
      collision params cells tmp_cells obstacles ii jj k =
        tmp_cells ii jj k + params.omega *
          (specEquilibrium (local_density (tmp_cells ii jj)) (specVelX (tmp_cells ii jj))
              (specVelY (tmp_cells ii jj)) k
            - tmp_cells ii jj k))
    ∧ (obstacles ii jj = true →
        collision params cells tmp_cells obstacles ii jj = cells ii jj) := by
  constructor
  · intro h k
    simp only [collision]
    rw [if_pos h]
    rw [d_equ_eq_specEquilibrium (tmp_cells ii jj) k]
  · intro h
    simp only [collision]
    rw [if_neg (by simp [h])]

/-- C6 witness: the BGK relaxation equation at direction 0 of cell (0, 0) of
the example configuration. -/
theorem collision_bgk_relaxation_witness :
    collision exampleParams exampleGrid exampleGrid exampleObstacles 0 0 0 =
      exampleGrid 0 0 0 + exampleParams.omega *
        (specEquilibrium (local_density (exampleGrid 0 0)) (specVelX (exampleGrid 0 0))
            (specVelY (exampleGrid 0 0)) 0
          - exampleGrid 0 0 0) :=
  (collision_bgk_relaxation exampleParams exampleGrid exampleGrid exampleObstacles 0 0).1 rfl 0

/-- C9: av_velocity's local result is the unguarded division of the sum of
velocity magnitudes over non-obstacle cells by the count of non-obstacle
cells; when every cell of the row range is an obstacle the count is zero and
the division by zero produces a non-finite value (modelled as none) with no
error signalled. -/
theorem av_velocity_division_by_zero (params : t_param) (cells : Grid) (obstacles : Obstacles)
    (ds dsize : ℕ) :
    (tot_cells params obstacles ds dsize ≠ 0 →
      av_velocity params cells obstacles ds dsize =
        some (tot_u params cells obstacles ds dsize
          / (tot_cells params obstacles ds dsize : ℝ)))
    ∧ ((∀ jj ∈ Finset.Ico ds (ds + dsize), ∀ ii ∈ range params.nx, obstacles ii jj = true) →
        tot_cells params obstacles ds dsize = 0
        ∧ av_velocity params cells obstacles ds dsize = none) := by
  constructor
  · intro h
    simp only [av_velocity, fdiv]
    rw [if_neg (by exact_mod_cast h)]
  · intro h
    have hz : tot_cells params obstacles ds dsize = 0 := by
      rw [tot_cells]
      apply Finset.sum_eq_zero
      intro jj hjj
      apply Finset.sum_eq_zero
      intro ii hii
      rw [h jj hjj ii hii]
      simp
    refine ⟨hz, ?_⟩
    simp only [av_velocity, fdiv, hz]
    rw [if_pos (by norm_num)]

/-- C9 witness: on a 1-by-1 row range whose only cell is an obstacle, the
fluid-cell count is zero and the average velocity is non-finite. -/
theorem av_velocity_division_by_zero_witness :
    tot_cells exampleParams exampleBlocked 0 1 = 0
    ∧ av_velocity exampleParams exampleGrid exampleBlocked 0 1 = none :=
  (av_velocity_division_by_zero exampleParams exampleGrid exampleBlocked 0 1).2
    (fun _ _ _ _ => rfl)

lemma propagate_eval_0 (params : t_param) (cells : Grid) (ii jj : ℕ) :
    propagate params cells ii jj 0 = cells ii jj 0 := rfl

lemma propagate_eval_1 (params : t_param) (cells : Grid) (ii jj : ℕ) :
    propagate params cells ii jj 1 =
      cells (if ii = 0 then ii + params.nx - 1 else ii - 1) jj 1 := rfl

lemma propagate_eval_2 (params : t_param) (cells : Grid) (ii jj : ℕ) :
    propagate params cells ii jj 2 =
      cells ii (if jj = 0 then jj + params.ny - 1 else jj - 1) 2 := rfl

lemma propagate_eval_3 (params : t_param) (cells : Grid) (ii jj : ℕ) :
    propagate params cells ii jj 3 = cells ((ii + 1) % params.nx) jj 3 := rfl

lemma propagate_eval_4 (params : t_param) (cells : Grid) (ii jj : ℕ) :
    propagate params cells ii jj 4 = cells ii ((jj + 1) % params.ny) 4 := rfl

lemma propagate_eval_5 (params : t_param) (cells : Grid) (ii jj : ℕ) :
    propagate params cells ii jj 5 =
      cells (if ii = 0 then ii + params.nx - 1 else ii - 1)
        (if jj = 0 then jj + params.ny - 1 else jj - 1) 5 := rfl

lemma propagate_eval_6 (params : t_param) (cells : Grid) (ii jj : ℕ) :
    propagate params cells ii jj 6 =
      cells ((ii + 1) % params.nx) (if jj = 0 then jj + params.ny - 1 else jj - 1) 6 := rfl

lemma propagate_eval_7 (params : t_param) (cells : Grid) (ii jj : ℕ) :
    propagate params cells ii jj 7 =
      cells ((ii + 1) % params.nx) ((jj + 1) % params.ny) 7 := rfl

lemma propagate_eval_8 (params : t_param) (cells : Grid) (ii jj : ℕ) :
    propagate params cells ii jj 8 =
      cells (if ii = 0 then ii + params.nx - 1 else ii - 1) ((jj + 1) % params.ny) 8 := rfl

lemma sum_range_inc (n : ℕ) (hn : 0 < n) (f : ℕ → ℝ) :
    ∑ i in range n, f ((i + 1) % n) = ∑ i in range n, f i := by
  apply Finset.sum_nbij' (fun a => (a + 1) % n) (fun b => if b = 0 then n - 1 else b - 1)
  · intro a ha
    rw [Finset.mem_range] at ha ⊢
    exact Nat.mod_lt _ hn
  · intro b hb
    rw [Finset.mem_range] at hb ⊢
    split_ifs <;> omega
  · intro a ha
    rw [Finset.mem_range] at ha
    by_cases hc : a + 1 = n
    · rw [hc, Nat.mod_self, if_pos rfl]
      omega
    · rw [Nat.mod_eq_of_lt (by omega), if_neg (show ¬a + 1 = 0 by omega)]
      omega
  · intro b hb
    rw [Finset.mem_range] at hb
    by_cases hc : b = 0
    · rw [if_pos hc, Nat.sub_add_cancel hn, Nat.mod_self, hc]
    · rw [if_neg hc, Nat.sub_add_cancel (by omega), Nat.mod_eq_of_lt hb]
  · intro a _
    rfl

lemma sum_range_dec (n : ℕ) (hn : 0 < n) (f : ℕ → ℝ) :
    ∑ i in range n, f (if i = 0 then i + n - 1 else i - 1) = ∑ i in range n, f i := by
  rw [← sum_range_inc n hn (fun j => f (if j = 0 then j + n - 1 else j - 1))]
  apply Finset.sum_congr rfl
  intro i hi
  rw [Finset.mem_range] at hi
  have hidx : (if (i + 1) % n = 0 then (i + 1) % n + n - 1 else (i + 1) % n - 1) = i := by
    by_cases hc : i + 1 = n
    · rw [hc, Nat.mod_self, if_pos rfl]
      omega
    · rw [Nat.mod_eq_of_lt (by omega), if_neg (show ¬i + 1 = 0 by omega)]
      omega
  rw [hidx]

lemma collision_local_density (params : t_param) (cells tmp_cells : Grid)
    (obstacles : Obstacles) (ii jj : ℕ) (h : obstacles ii jj = false) :
    local_density (collision params cells tmp_cells obstacles ii jj)
      = local_density (tmp_cells ii jj) := by
  have hc : collision params cells tmp_cells obstacles ii jj = fun k =>
      tmp_cells ii jj k + params.omega * (d_equ (tmp_cells ii jj) k - tmp_cells ii jj k) := by
    simp only [collision]
    rw [if_pos h]
  rw [hc]
  simp only [local_density]
  rw [d_eval_0, d_eval_1, d_eval_2, d_eval_3, d_eval_4, d_eval_5, d_eval_6, d_eval_7, d_eval_8]
  simp only [local_density]
  ring

lemma total_density_propagate (params : t_param) (cells : Grid) (hx : 0 < params.nx)
    (hy : 0 < params.ny) :
    (∑ jj in range params.ny, ∑ ii in range params.nx,
        local_density (propagate params cells ii jj))
      = total_density params cells := by
  have T1 : (∑ jj in range params.ny, ∑ ii in range params.nx,
        cells (if ii = 0 then ii + params.nx - 1 else ii - 1) jj 1)
      = ∑ jj in range params.ny, ∑ ii in range params.nx, cells ii jj 1 :=
    Finset.sum_congr rfl fun j _ => sum_range_dec params.nx hx (fun i => cells i j 1)
  have T2 : (∑ jj in range params.ny, ∑ ii in range params.nx,
        cells ii (if jj = 0 then jj + params.ny - 1 else jj - 1) 2)
      = ∑ jj in range params.ny, ∑ ii in range params.nx, cells ii jj 2 :=
    sum_range_dec params.ny hy (fun j => ∑ ii in range params.nx, cells ii j 2)
  have T3 : (∑ jj in range params.ny, ∑ ii in range params.nx,
        cells ((ii + 1) % params.nx) jj 3)
      = ∑ jj in range params.ny, ∑ ii in range params.nx, cells ii jj 3 :=
    Finset.sum_congr rfl fun j _ => sum_range_inc params.nx hx (fun i => cells i j 3)
  have T4 : (∑ jj in range params.ny, ∑ ii in range params.nx,
        cells ii ((jj + 1) % params.ny) 4)
      = ∑ jj in range params.ny, ∑ ii in range params.nx, cells ii jj 4 :=
    sum_range_inc params.ny hy (fun j => ∑ ii in range params.nx, cells ii j 4)
  have T5 : (∑ jj in range params.ny, ∑ ii in range params.nx,
        cells (if ii = 0 then ii + params.nx - 1 else ii - 1)
          (if jj = 0 then jj + params.ny - 1 else jj - 1) 5)
      = ∑ jj in range params.ny, ∑ ii in range params.nx, cells ii jj 5 := by
    calc (∑ jj in range params.ny, ∑ ii in range params.nx,
          cells (if ii = 0 then ii + params.nx - 1 else ii - 1)
            (if jj = 0 then jj + params.ny - 1 else jj - 1) 5)
        = ∑ jj in range params.ny, ∑ ii in range params.nx,
            cells ii (if jj = 0 then jj + params.ny - 1 else jj - 1) 5 :=
          Finset.sum_congr rfl fun j _ =>
            sum_range_dec params.nx hx (fun i => cells i (if j = 0 then j + params.ny - 1 else j - 1) 5)
      _ = ∑ jj in range params.ny, ∑ ii in range params.nx, cells ii jj 5 :=
          sum_range_dec params.ny hy (fun j => ∑ ii in range params.nx, cells ii j 5)
  have T6 : (∑ jj in range params.ny, ∑ ii in range params.nx,
        cells ((ii + 1) % params.nx) (if jj = 0 then jj + params.ny - 1 else jj - 1) 6)
      = ∑ jj in range params.ny, ∑ ii in range params.nx, cells ii jj 6 := by
    calc (∑ jj in range params.ny, ∑ ii in range params.nx,
          cells ((ii + 1) % params.nx) (if jj = 0 then jj + params.ny - 1 else jj - 1) 6)
        = ∑ jj in range params.ny, ∑ ii in range params.nx,
            cells ii (if jj = 0 then jj + params.ny - 1 else jj - 1) 6 :=
          Finset.sum_congr rfl fun j _ =>
            sum_range_inc params.nx hx (fun i => cells i (if j = 0 then j + params.ny - 1 else j - 1) 6)
      _ = ∑ jj in range params.ny, ∑ ii in range params.nx, cells ii jj 6 :=
          sum_range_dec params.ny hy (fun j => ∑ ii in range params.nx, cells ii j 6)
  have T7 : (∑ jj in range params.ny, ∑ ii in range params.nx,
        cells ((ii + 1) % params.nx) ((jj + 1) % params.ny) 7)
      = ∑ jj in range params.ny, ∑ ii in range params.nx, cells ii jj 7 := by
    calc (∑ jj in range params.ny, ∑ ii in range params.nx,
          cells ((ii + 1) % params.nx) ((jj + 1) % params.ny) 7)
        = ∑ jj in range params.ny, ∑ ii in range params.nx,
            cells ii ((jj + 1) % params.ny) 7 :=
          Finset.sum_congr rfl fun j _ =>
            sum_range_inc params.nx hx (fun i => cells i ((j + 1) % params.ny) 7)
      _ = ∑ jj in range params.ny, ∑ ii in range params.nx, cells ii jj 7 :=
          sum_range_inc params.ny hy (fun j => ∑ ii in range params.nx, cells ii j 7)
  have T8 : (∑ jj in range params.ny, ∑ ii in range params.nx,
        cells (if ii = 0 then ii + params.nx - 1 else ii - 1) ((jj + 1) % params.ny) 8)
      = ∑ jj in range params.ny, ∑ ii in range params.nx, cells ii jj 8 := by
    calc (∑ jj in range params.ny, ∑ ii in range params.nx,
          cells (if ii = 0 then ii + params.nx - 1 else ii - 1) ((jj + 1) % params.ny) 8)
        = ∑ jj in range params.ny, ∑ ii in range params.nx,
            cells ii ((jj + 1) % params.ny) 8 :=
          Finset.sum_congr rfl fun j _ =>
            sum_range_dec params.nx hx (fun i => cells i ((j + 1) % params.ny) 8)
      _ = ∑ jj in range params.ny, ∑ ii in range params.nx, cells ii jj 8 :=
          sum_range_inc params.ny hy (fun j => ∑ ii in range params.nx, cells ii j 8)
  simp only [local_density, propagate_eval_0, propagate_eval_1, propagate_eval_2,
    propagate_eval_3, propagate_eval_4, propagate_eval_5, propagate_eval_6, propagate_eval_7,
    propagate_eval_8]
  simp only [Finset.sum_add_distrib]
  rw [T1, T2, T3, T4, T5, T6, T7, T8]
  simp only [total_density, local_density, Finset.sum_add_distrib]

/-- C8: with no obstacles and no forcing, one full timestep (propagate over
all cells into scratch, then collision over all cells back into current),
computed in exact arithmetic, leaves the total density (the sum over all
cells of all 9 speeds) unchanged: propagate permutes each speed over the
periodic grid, and collision preserves each cell's local density because the
9 equilibrium values always sum to the local density. -/
theorem mass_conservation (params : t_param) (cells : Grid) (obstacles : Obstacles)
    (hx : 0 < params.nx) (hy : 0 < params.ny) (hobs : ∀ ii jj, obstacles ii jj = false) :
    total_density params
        (fun ii jj =>
          collision params cells (fun x y => propagate params cells x y) obstacles ii jj)
      = total_density params cells := by
  have h1 : total_density params
      (fun ii jj =>
        collision params cells (fun x y => propagate params cells x y) obstacles ii jj)
      = ∑ jj in range params.ny, ∑ ii in range params.nx,
          local_density (propagate params cells ii jj) := by
    simp only [total_density]
    exact Finset.sum_congr rfl fun j _ => Finset.sum_congr rfl fun i _ =>
      collision_local_density params cells (fun x y => propagate params cells x y)
        obstacles i j (hobs i j)
  rw [h1, total_density_propagate params cells hx hy]

/-- C8 witness: one timestep on the obstacle-free example grid conserves the
total density. -/
theorem mass_conservation_witness :
    total_density exampleParams
        (fun ii jj =>
          collision exampleParams exampleGrid
            (fun x y => propagate exampleParams exampleGrid x y) exampleObstacles ii jj)
      = total_density exampleParams exampleGrid :=
  mass_conservation exampleParams exampleGrid exampleObstacles (by decide) (by decide)
    (fun _ _ => rfl)
